import Mathlib

/-!
Verification development for the colrShift repository (src/app.py).

The program is a Streamlit application that converts RGB/RGBA raster
images to CMYK through ICC profiles (PIL.ImageCms) and re-encodes the
result as TIFF or JPEG.  This file gives a shallow embedding of the
pixel-level data model and of the operations of app.py, together with
the PIL / Pillow library primitives the program invokes:

* `Image.convert` between the modes the program uses (RGBA to RGB,
  CMYK/RGB/RGBA to CMYK), faithful to the C shufflers in Pillow
  (Convert.c: `cmyk2rgb`, `rgb2cmyk`, band dropping);
* `Image.getchannel`, `Image.putalpha` (Image.py), including the
  Pillow behaviour of `putalpha` on a CMYK image: CMYK is not an
  alpha mode and its ImageMode basemode is "RGB", so the image is
  promoted to mode "RGBA" — the C-level `setmode` refuses (CMYK is
  not an RGB mode) and the raster is converted with the `cmyk2rgb`
  shuffler — and the alpha raster is then stored into band 3;
* `ImageCms.getOpenProfile` / `ImageCms.profileToProfile`: the
  LittleCMS colour engine itself is external, so it is embedded as an
  explicit per-pixel function parameter (`TransformEngine`); profile
  opening is recorded in an event log so that statements about
  per-conversion re-parsing can be made;
* the `save` calls of app.py for TIFF and JPEG, embedded as the
  parameter records they hand to the encoder (the TIFF plugin stores
  the `icc_profile` bytes, the `dpi` pair and the compression tag
  verbatim; the JPEG plugin reads `dpi` and `icc_profile` only from
  the keyword arguments of the call, and app.py passes neither).

Machine integers are modelled as `Nat` with the explicit clipping the
C code performs (`CLIP8`, unsigned 8-bit channel samples).
-/

/-- An image in the PIL data model: a mode string ("RGB", "RGBA",
"CMYK", "L", ...) together with the raster as a flat row-major list of
pixels, each pixel a list of 8-bit channel samples. -/
structure Img where
  mode : String
  pixels : List (List Nat)
  deriving DecidableEq, Repr

/-- LittleCMS rendering intent INTENT_PERCEPTUAL (PIL.ImageCms value 0). -/
def INTENT_PERCEPTUAL : Nat := 0

/-- LittleCMS rendering intent INTENT_RELATIVE_COLORIMETRIC
(PIL.ImageCms value 1); app.py line 64 passes the literal 1. -/
def INTENT_RELATIVE_COLORIMETRIC : Nat := 1

/-- Constant SRGB_PROFILE of app.py (line 17). -/
def SRGB_PROFILE : String := "profiles/sRGB_IEC61966-2-1.icc"

/-- Constant ADOBE_RGB_PROFILE of app.py (line 18). -/
def ADOBE_RGB_PROFILE : String := "profiles/AdobeRGB1998.icc"

/-- Constant CMYK_PROFILE of app.py (line 19). -/
def CMYK_PROFILE : String := "profiles/ISOcoated_v2_eci.icc"

/-- Constant TARGET_DPI of app.py (line 20): fixed 150 DPI. -/
def TARGET_DPI : Nat × Nat := (150, 150)

/-- The MULDIV255 macro of Pillow (ImagingUtils.h):
tmp = a * b + 128; result = ((tmp >> 8) + tmp) >> 8. -/
def muldiv255 (a b : Nat) : Nat :=
  ((a * b + 128) / 256 + (a * b + 128)) / 256

/-- The CLIP8 macro of Pillow on a value already clipped below by the
truncated `Nat` subtraction: clamp to the 8-bit range. -/
def clip8 (v : Nat) : Nat := min 255 v

/-- The `cmyk2rgb` shuffler of Pillow (Convert.c), used when a CMYK
raster is converted to RGB/RGBA/RGBX: nk = 255 - K, each colour output
is CLIP8(nk - MULDIV255(channel, nk)), and band 3 is filled with 255.
Channel reads follow the C code, which always reads 4 bands. -/
def cmyk2rgbPixel (p : List Nat) : List Nat :=
  [ clip8 ((255 - p.getD 3 0) - muldiv255 (p.getD 0 0) (255 - p.getD 3 0)),
    clip8 ((255 - p.getD 3 0) - muldiv255 (p.getD 1 0) (255 - p.getD 3 0)),
    clip8 ((255 - p.getD 3 0) - muldiv255 (p.getD 2 0) (255 - p.getD 3 0)),
    255 ]

/-- The `rgb2cmyk` shuffler of Pillow (Convert.c), used when an RGB or
RGBA raster is converted to CMYK: C = 255 - R, M = 255 - G,
Y = 255 - B, K = 0 (no undercolour removal); a fourth input band
(alpha) is ignored. -/
def rgb2cmykPixel (p : List Nat) : List Nat :=
  [255 - p.getD 0 0, 255 - p.getD 1 0, 255 - p.getD 2 0, 0]

/-- PIL `img.convert("RGB")` as used by app.py lines 47 and 50: on an
RGB image it is a plain copy, on an RGBA image it drops the alpha band
without compositing, keeping the RGB samples unchanged. -/
def toRGB (img : Img) : Img :=
  if img.mode == "RGB" then img
  else ⟨"RGB", img.pixels.map (List.take 3)⟩

/-- PIL `img.getchannel("A")` on an RGBA image (app.py line 48):
a mode-L image holding band 3. -/
def getchannel_A (img : Img) : Img :=
  ⟨"L", img.pixels.map (fun p => [p.getD 3 0])⟩

/-- PIL `im.putband(alpha, band)`: store the single-band raster
`al` into band index `band` of `img`. -/
def putband (img al : Img) (band : Nat) : Img :=
  ⟨img.mode, List.zipWith (fun p ap => p.set band (ap.getD 0 0)) img.pixels al.pixels⟩

/-- PIL `Image.putalpha` (Image.py) restricted to the modes this
program can reach.  On an RGBA image the alpha is stored into band 3.
On a CMYK image — the only call site in app.py, line 74 — CMYK is not
an alpha mode; `getmodebase("CMYK")` is "RGB", so Pillow promotes the
image to mode "RGBA": the C-level `setmode` refuses because CMYK is
not an RGB mode, the raster is converted with the `cmyk2rgb` shuffler,
the mode becomes "RGBA", and the alpha raster is stored into band 3.
The CMYK sample values are therefore not preserved. -/
def putalpha (img al : Img) : Img :=
  if img.mode == "RGBA" then putband img al 3
  else if img.mode == "LA" || img.mode == "PA" then putband img al 1
  else if img.mode == "CMYK" then
    putband ⟨"RGBA", img.pixels.map cmyk2rgbPixel⟩ al 3
  else img

/-- The external LittleCMS device-to-device engine, as a per-pixel
function of the source profile path, the destination profile path, the
rendering intent, and the RGB pixel.  It is a parameter of the
embedding: the engine is deterministic and the program treats it as a
black box. -/
def TransformEngine : Type :=
  String → String → Nat → List Nat → List Nat

/-- PIL `ImageCms.profileToProfile(img, src, dst, renderingIntent=i,
outputMode="CMYK")` (app.py lines 60 to 66): apply the engine to every
pixel; the result has mode "CMYK". -/
def profileToProfile (T : TransformEngine) (img : Img)
    (src dst : String) (intent : Nat) : Img :=
  ⟨"CMYK", img.pixels.map (T src dst intent)⟩

/-- Observable outcome of one call of `convert_rgb_to_cmyk`: the
returned image (None on an engine failure, modelled by the `Option`),
the ICC profile paths handed to `ImageCms.getOpenProfile` during the
call (app.py lines 56 and 57 open both profiles inside the function
body), and the rendering intent passed to the engine. -/
structure ConvOutput where
  result : Option Img
  openedProfiles : List String
  intentUsed : Option Nat
  deriving DecidableEq, Repr

/-- The function `convert_rgb_to_cmyk` of app.py (lines 39 to 76):
split off the alpha band when the input is RGBA, open the two ICC
profiles, run `profileToProfile` with the literal rendering intent 1,
and when the input was transparent and the transform produced a CMYK
image, put the alpha band back with `putalpha`. -/
def convert_rgb_to_cmyk (T : TransformEngine) (img : Img)
    (source_profile_path cmyk_profile_path : String) : ConvOutput :=
  let rgb_img := toRGB img
  let cmyk_img :=
    profileToProfile T rgb_img source_profile_path cmyk_profile_path
      INTENT_RELATIVE_COLORIMETRIC
  let final :=
    if img.mode == "RGBA" then
      if cmyk_img.mode == "CMYK" then putalpha cmyk_img (getchannel_A img)
      else cmyk_img
    else cmyk_img
  ⟨some final, [source_profile_path, cmyk_profile_path],
    some INTENT_RELATIVE_COLORIMETRIC⟩

/-- PIL `img.convert("CMYK")` as reachable from app.py line 174:
identity on a CMYK image (convert to the same mode is a copy), the
`rgb2cmyk` shuffler on an RGB or RGBA image (alpha is ignored). -/
def convertToCMYK (img : Img) : Img :=
  if img.mode == "CMYK" then img
  else if img.mode == "RGB" || img.mode == "RGBA" then
    ⟨"CMYK", img.pixels.map rgb2cmykPixel⟩
  else img

/-- The two entries of the source-profile selectbox (app.py lines 83
to 91). -/
inductive SourceChoice where
  | sRGB
  | adobeRGB
  deriving DecidableEq, Repr

/-- The two entries of the output-format selectbox (app.py lines 99
to 102). -/
inductive OutFormat where
  | tiff
  | jpeg
  deriving DecidableEq, Repr

/-- Profile path selected by the source-profile choice (app.py lines
88 to 91). -/
def source_path_of : SourceChoice → String
  | .sRGB => SRGB_PROFILE
  | .adobeRGB => ADOBE_RGB_PROFILE

/-- Parameter record of a `save` call as the encoder receives it:
container format, pixel layout and raster written, and the metadata
the call supplies (`dpi`, `icc_profile`, `compression`, `quality`).
A `none` field means the save call passes no such argument, and the
plugin, which reads these only from the arguments of the call, embeds
nothing for it. -/
structure SavedFile where
  format : String
  mode : String
  pixels : List (List Nat)
  dpi : Option (Nat × Nat)
  icc_profile : Option (List Nat)
  compression : Option String
  quality : Option Nat
  deriving DecidableEq, Repr

/-- The TIFF save call of app.py (lines 164 to 170):
`save(format="TIFF", dpi=TARGET_DPI, icc_profile=CMYK_PROFILE_BYTES,
compression="tiff_lzw")`; the profile bytes parameter is the raw file
content read once at startup (lines 30 to 33). -/
def tiffSave (img : Img) (profBytes : List Nat) : SavedFile :=
  ⟨"TIFF", img.mode, img.pixels, some TARGET_DPI, some profBytes,
    some "tiff_lzw", none⟩

/-- The JPEG save call of app.py (lines 174 to 179):
`convert("CMYK").save(format="JPEG", quality=95, optimize=True)`.
No `dpi` and no `icc_profile` argument is passed, so the JPEG plugin
embeds neither a resolution tag nor a profile. -/
def jpegSave (img : Img) : SavedFile :=
  ⟨"JPEG", img.mode, img.pixels, none, none, none, some 95⟩

/-- Encode the final image per the chosen output format (app.py lines
161 to 179). -/
def encodeFile (fmt : OutFormat) (cmyk_img : Img) (profBytes : List Nat) :
    SavedFile :=
  match fmt with
  | .tiff => tiffSave cmyk_img profBytes
  | .jpeg => jpegSave (convertToCMYK cmyk_img)

/-- Download file name (app.py line 156 and 189). -/
def file_name_of : OutFormat → String
  | .tiff => "imagen_cmyk.tif"
  | .jpeg => "imagen_cmyk.jpg"

/-- Download MIME type (app.py line 157). -/
def mime_of : OutFormat → String
  | .tiff => "image/tiff"
  | .jpeg => "image/jpeg"

/-- Caller-visible outcome of one request.  `download` carries the
save-call record, the file name and MIME type of the download button,
and `alphaDroppedReported`: the flag the application surfaces to the
caller about dropped transparency.  app.py computes and surfaces no
such flag on any path, so the pipeline always fills this field with
`none`.  `stopped` is `st.stop()` after a hard error. -/
inductive AppOutcome where
  | download (file : SavedFile) (fileName : String) (mimeType : String)
      (alphaDroppedReported : Option Bool)
  | stopped
  deriving DecidableEq, Repr

/-- Result of the mode-standardisation block of app.py (lines 110 to
133). -/
inductive NormResult where
  | passthroughCMYK (img : Img)
  | rgbFamily (img : Img)
  | hardStop
  deriving DecidableEq, Repr

/-- The mode-standardisation block of app.py (lines 110 to 133): RGB
and RGBA images pass through; a CMYK image is copied and marked as
pass-through (no profile conversion); any other mode is coerced by
`Image.convert` to RGBA when the mode string contains the band letter
A or equals "LA", else to RGB; a raised exception in the coercion
(the `conv` parameter returning `none`) leads to `st.stop()`.  The
`conv` parameter is the external PIL mode-conversion primitive for
those remaining modes; on success it yields the raster of the
requested target mode. -/
def normalizeMode (conv : Img → String → Option (List (List Nat)))
    (img : Img) : NormResult :=
  if img.mode == "RGB" || img.mode == "RGBA" then .rgbFamily img
  else if img.mode == "CMYK" then .passthroughCMYK img
  else
    match conv img (if img.mode.data.contains 'A' || img.mode == "LA"
                    then "RGBA" else "RGB") with
    | some px =>
        .rgbFamily ⟨(if img.mode.data.contains 'A' || img.mode == "LA"
                     then "RGBA" else "RGB"), px⟩
    | none => .hardStop

/-- The per-request pipeline of app.py (lines 105 to 191), returning
the caller-visible outcome together with the list of ICC profile paths
opened (parsed) by `ImageCms.getOpenProfile` during the request. -/
def appRunCore (T : TransformEngine)
    (conv : Img → String → Option (List (List Nat)))
    (cmykProfileFileBytes : List Nat) (choice : SourceChoice)
    (fmt : OutFormat) (input_img : Img) : AppOutcome × List String :=
  match normalizeMode conv input_img with
  | .hardStop => (.stopped, [])
  | .passthroughCMYK img =>
      (.download (encodeFile fmt img cmykProfileFileBytes)
        (file_name_of fmt) (mime_of fmt) none, [])
  | .rgbFamily img =>
      match (convert_rgb_to_cmyk T img (source_path_of choice) CMYK_PROFILE).result with
      | none =>
          (.stopped,
            (convert_rgb_to_cmyk T img (source_path_of choice) CMYK_PROFILE).openedProfiles)
      | some cmyk_img =>
          (.download (encodeFile fmt cmyk_img cmykProfileFileBytes)
            (file_name_of fmt) (mime_of fmt) none,
            (convert_rgb_to_cmyk T img (source_path_of choice) CMYK_PROFILE).openedProfiles)

/-- Caller-visible outcome of one request. -/
def appRun (T : TransformEngine)
    (conv : Img → String → Option (List (List Nat)))
    (cmykProfileFileBytes : List Nat) (choice : SourceChoice)
    (fmt : OutFormat) (input_img : Img) : AppOutcome :=
  (appRunCore T conv cmykProfileFileBytes choice fmt input_img).1

/-- One request as a transition on the process state.  The only
cross-request mutable state of the program is the history of profile
parsing events (module-level constants are read-only); a request
appends its own profile opens to it. -/
def appRunStateful (T : TransformEngine)
    (conv : Img → String → Option (List (List Nat)))
    (cmykProfileFileBytes : List Nat) (choice : SourceChoice)
    (fmt : OutFormat) (input_img : Img) (s : List String) :
    AppOutcome × List String :=
  ((appRunCore T conv cmykProfileFileBytes choice fmt input_img).1,
    s ++ (appRunCore T conv cmykProfileFileBytes choice fmt input_img).2)

/-- Build an RGBA image from an RGB plane and an alpha plane. -/
def mkRGBA (rgb : List (Nat × Nat × Nat)) (a : List Nat) : Img :=
  ⟨"RGBA", List.zipWith (fun t al => [t.1, t.2.1, t.2.2, al]) rgb a⟩

/-- Concrete engine used in closed test statements: a constant CMYK
pixel. -/
def T0 : TransformEngine := fun _ _ _ _ => [200, 100, 50, 40]

/-- Concrete engine that leaks the rendering intent it received into
every output channel. -/
def Tprobe : TransformEngine := fun _ _ intent _ => [intent, intent, intent, intent]

/-- Concrete mode-coercion primitive that always fails. -/
def convNone : Img → String → Option (List (List Nat)) := fun _ _ => none

/-- Concrete mode-coercion primitive that yields a fixed raster of the
requested arity. -/
def convGray : Img → String → Option (List (List Nat)) :=
  fun img target =>
    some (img.pixels.map (fun p =>
      if target == "RGBA" then [p.getD 0 0, p.getD 0 0, p.getD 0 0, p.getD 1 255]
      else [p.getD 0 0, p.getD 0 0, p.getD 0 0]))

/-! Helper lemmas shared by several claim theorems. -/

/-- A pass-through result of the normaliser is the input image itself
and its mode is CMYK. -/
theorem normalizeMode_passthrough_mode
    (conv : Img → String → Option (List (List Nat))) (img i : Img)
    (h : normalizeMode conv img = .passthroughCMYK i) :
    i = img ∧ i.mode = "CMYK" := by
  unfold normalizeMode at h
  split at h
  · simp at h
  · split at h
    · rename_i h1 h2
      obtain rfl := NormResult.passthroughCMYK.inj h
      exact ⟨rfl, by simpa using h2⟩
    · split at h <;> simp at h

/-- An rgbFamily result of the normaliser has mode RGB or RGBA. -/
theorem normalizeMode_rgbFamily_mode
    (conv : Img → String → Option (List (List Nat))) (img i : Img)
    (h : normalizeMode conv img = .rgbFamily i) :
    i.mode = "RGB" ∨ i.mode = "RGBA" := by
  unfold normalizeMode at h
  split at h
  · rename_i h1
    obtain rfl := NormResult.rgbFamily.inj h
    simpa using h1
  · split at h
    · simp at h
    · split at h
      · obtain rfl := (NormResult.rgbFamily.inj h).symm
        by_cases hA : (img.mode.data.contains 'A' || img.mode == "LA") = true
        · exact Or.inr (by rw [if_pos hA])
        · exact Or.inl (by rw [if_neg hA])
      · simp at h

/-- The image returned by convert_rgb_to_cmyk has mode CMYK (opaque
input) or RGBA (transparent input, after the putalpha promotion). -/
theorem convert_result_mode (T : TransformEngine) (img : Img)
    (src dst : String) (r : Img)
    (h : (convert_rgb_to_cmyk T img src dst).result = some r) :
    r.mode = "CMYK" ∨ r.mode = "RGBA" := by
  unfold convert_rgb_to_cmyk at h
  simp only [Option.some.injEq] at h
  subst h
  by_cases hm : (img.mode == "RGBA") = true <;>
    simp [hm, profileToProfile, putalpha, putband]

/-- Converting an image of mode CMYK, RGB or RGBA to CMYK yields mode
CMYK. -/
theorem convertToCMYK_mode_of (i : Img)
    (h : i.mode = "CMYK" ∨ i.mode = "RGB" ∨ i.mode = "RGBA") :
    (convertToCMYK i).mode = "CMYK" := by
  unfold convertToCMYK
  rcases h with h | h | h <;> simp [h]

/-- On the JPEG path every download carries a file produced by the
JPEG save call on the CMYK-converted final image, and the application
surfaces no alpha-drop flag. -/
theorem appRun_jpeg_file (T : TransformEngine)
    (conv : Img → String → Option (List (List Nat))) (bytes : List Nat)
    (choice : SourceChoice) (img : Img) (f : SavedFile) (n m : String)
    (rep : Option Bool)
    (h : appRun T conv bytes choice .jpeg img = .download f n m rep) :
    ∃ i : Img, f = jpegSave (convertToCMYK i)
      ∧ (i.mode = "CMYK" ∨ i.mode = "RGB" ∨ i.mode = "RGBA")
      ∧ rep = none := by
  unfold appRun appRunCore at h
  cases hn : normalizeMode conv img <;> rw [hn] at h
  case passthroughCMYK i =>
    obtain ⟨hi, hm⟩ := normalizeMode_passthrough_mode conv img i hn
    simp only [encodeFile, AppOutcome.download.injEq] at h
    exact ⟨i, h.1.symm, Or.inl hm, h.2.2.2.symm⟩
  case rgbFamily i =>
    rcases hres : (convert_rgb_to_cmyk T i (source_path_of choice) CMYK_PROFILE).result
        with _ | r
    · simp [hres] at h
    · simp only [hres, encodeFile, AppOutcome.download.injEq] at h
      refine ⟨r, h.1.symm, ?_, h.2.2.2.symm⟩
      rcases convert_result_mode T i (source_path_of choice) CMYK_PROFILE r hres
          with hm | hm
      · exact Or.inl hm
      · exact Or.inr (Or.inr hm)
  case hardStop => simp at h

/-! Claim theorems. -/

/-- C1: claimed behaviour: for RGBA input the conversion returns a
CMYK(+alpha) buffer whose alpha plane equals the extracted input alpha
plane.  Observed code behaviour at the failing input, a one-pixel RGBA
image (10, 20, 30, alpha 128) with the engine producing the CMYK pixel
(200, 100, 50, 40): `putalpha` on the CMYK intermediate promotes the
image to mode RGBA through the naive `cmyk2rgb` inversion, so the
returned buffer has mode RGBA, its colour samples are the folded
values (46, 131, 173) rather than the engine CMYK values, and the
alpha 128 sits in band 3 where the K sample used to be.  The buffer is
therefore not a CMYK(+alpha) buffer, contradicting the functions own
docstring (convert to CMYK preserving transparency). -/
theorem C1_convert_returns_rgba_not_cmyk :
    (convert_rgb_to_cmyk T0 ⟨"RGBA", [[10, 20, 30, 128]]⟩ SRGB_PROFILE
        CMYK_PROFILE).result = some ⟨"RGBA", [[46, 131, 173, 128]]⟩
    ∧ ("RGBA" : String) ≠ "CMYK"
    ∧ T0 SRGB_PROFILE CMYK_PROFILE INTENT_RELATIVE_COLORIMETRIC [10, 20, 30]
        = [200, 100, 50, 40] := by
  decide

/-- C2: an input image already in CMYK mode bypasses the colour
transform entirely: the pixel buffer handed to the output encoder has
exactly the input samples, it is still encoded in the chosen output
format, and no ICC profile is opened for a transform during the
request. -/
theorem C2_cmyk_passthrough (T : TransformEngine)
    (conv : Img → String → Option (List (List Nat))) (bytes : List Nat)
    (choice : SourceChoice) (fmt : OutFormat) (img : Img)
    (h : img.mode = "CMYK") :
    appRun T conv bytes choice fmt img =
      .download (encodeFile fmt img bytes) (file_name_of fmt) (mime_of fmt) none
    ∧ (encodeFile fmt img bytes).pixels = img.pixels
    ∧ (encodeFile fmt img bytes).mode = "CMYK"
    ∧ (encodeFile fmt img bytes).format = (match fmt with
        | .tiff => "TIFF"
        | .jpeg => "JPEG")
    ∧ (appRunCore T conv bytes choice fmt img).2 = [] := by
  cases fmt <;>
    simp [appRun, appRunCore, normalizeMode, encodeFile, tiffSave, jpegSave,
      convertToCMYK, h]

/-- C2 witness: a concrete one-pixel CMYK image passes through to the
TIFF encoder unchanged. -/
theorem C2_cmyk_passthrough_witness :
    appRun T0 convNone [7] .sRGB .tiff ⟨"CMYK", [[1, 2, 3, 4]]⟩ =
      .download (encodeFile .tiff ⟨"CMYK", [[1, 2, 3, 4]]⟩ [7])
        (file_name_of .tiff) (mime_of .tiff) none
    ∧ (encodeFile .tiff ⟨"CMYK", [[1, 2, 3, 4]]⟩ [7]).pixels = [[1, 2, 3, 4]]
    ∧ (encodeFile .tiff ⟨"CMYK", [[1, 2, 3, 4]]⟩ [7]).mode = "CMYK"
    ∧ (encodeFile .tiff ⟨"CMYK", [[1, 2, 3, 4]]⟩ [7]).format =
        (match OutFormat.tiff with
          | .tiff => "TIFF"
          | .jpeg => "JPEG")
    ∧ (appRunCore T0 convNone [7] .sRGB .tiff ⟨"CMYK", [[1, 2, 3, 4]]⟩).2 = [] :=
  C2_cmyk_passthrough T0 convNone [7] .sRGB .tiff ⟨"CMYK", [[1, 2, 3, 4]]⟩ rfl

/-- C3: every download produced on the TIFF path embeds exactly the
raw byte sequence of the target CMYK profile file, carries the fixed
150 by 150 DPI resolution, and uses LZW compression. -/
theorem C3_tiff_metadata (T : TransformEngine)
    (conv : Img → String → Option (List (List Nat))) (bytes : List Nat)
    (choice : SourceChoice) (img : Img) (f : SavedFile) (n m : String)
    (rep : Option Bool)
    (h : appRun T conv bytes choice .tiff img = .download f n m rep) :
    f.icc_profile = some bytes ∧ f.dpi = some (150, 150)
    ∧ f.compression = some "tiff_lzw" ∧ f.format = "TIFF" := by
  unfold appRun appRunCore at h
  cases hn : normalizeMode conv img <;> rw [hn] at h
  case passthroughCMYK i =>
    simp only [encodeFile, AppOutcome.download.injEq] at h
    obtain ⟨hf, -⟩ := h
    subst hf
    exact ⟨rfl, rfl, rfl, rfl⟩
  case rgbFamily i =>
    rcases hres : (convert_rgb_to_cmyk T i (source_path_of choice) CMYK_PROFILE).result
        with _ | r
    · simp [hres] at h
    · simp only [hres, encodeFile, AppOutcome.download.injEq] at h
      obtain ⟨hf, -⟩ := h
      subst hf
      exact ⟨rfl, rfl, rfl, rfl⟩
  case hardStop => simp at h

/-- C3 witness: the concrete TIFF download of a one-pixel CMYK
pass-through run embeds the profile file bytes, 150 DPI and LZW. -/
theorem C3_tiff_metadata_witness :
    (SavedFile.mk "TIFF" "CMYK" [[1, 2, 3, 4]] (some (150, 150)) (some [9, 9])
        (some "tiff_lzw") none).icc_profile = some [9, 9]
    ∧ (SavedFile.mk "TIFF" "CMYK" [[1, 2, 3, 4]] (some (150, 150)) (some [9, 9])
        (some "tiff_lzw") none).dpi = some (150, 150)
    ∧ (SavedFile.mk "TIFF" "CMYK" [[1, 2, 3, 4]] (some (150, 150)) (some [9, 9])
        (some "tiff_lzw") none).compression = some "tiff_lzw"
    ∧ (SavedFile.mk "TIFF" "CMYK" [[1, 2, 3, 4]] (some (150, 150)) (some [9, 9])
        (some "tiff_lzw") none).format = "TIFF" :=
  C3_tiff_metadata T0 convNone [9, 9] .sRGB ⟨"CMYK", [[1, 2, 3, 4]]⟩
    (SavedFile.mk "TIFF" "CMYK" [[1, 2, 3, 4]] (some (150, 150)) (some [9, 9])
      (some "tiff_lzw") none) "imagen_cmyk.tif" "image/tiff" none (by decide)

/-- C4 counterexample: the rendering intent is not an input of any
conversion.  With an engine that leaks the intent it receives into the
output pixel, the conversion of a concrete image shows the engine is
invoked with intent 1 (RelativeColorimetric); the recorded intent is 1
for the other source profile as well, and 1 is not the Perceptual
intent, so no conversion can ever run with Perceptual intent. -/
theorem C4_intent_counterexample :
    (convert_rgb_to_cmyk Tprobe ⟨"RGB", [[0, 0, 0]]⟩ SRGB_PROFILE
        CMYK_PROFILE).result = some ⟨"CMYK", [[1, 1, 1, 1]]⟩
    ∧ (convert_rgb_to_cmyk Tprobe ⟨"RGB", [[0, 0, 0]]⟩ ADOBE_RGB_PROFILE
        CMYK_PROFILE).intentUsed = some INTENT_RELATIVE_COLORIMETRIC
    ∧ INTENT_RELATIVE_COLORIMETRIC ≠ INTENT_PERCEPTUAL := by
  decide

/-- C4 amended: the rendering intent of the colour transform is
hardcoded to the literal 1 (RelativeColorimetric) inside
convert_rgb_to_cmyk for every engine, image and profile pair; it is
not an input of the conversion. -/
theorem C4_intent_hardcoded (T : TransformEngine) (img : Img)
    (src dst : String) :
    (convert_rgb_to_cmyk T img src dst).intentUsed =
      some INTENT_RELATIVE_COLORIMETRIC
    ∧ INTENT_RELATIVE_COLORIMETRIC = 1 :=
  ⟨rfl, rfl⟩

/-- C5 counterexample: a concrete JPEG-path run passes no dpi argument
to the save call, so the output carries no 150 by 150 resolution tag. -/
theorem C5_jpeg_no_dpi_counterexample :
    appRun T0 convNone [7] .sRGB .jpeg ⟨"RGB", [[10, 20, 30]]⟩ =
      .download ⟨"JPEG", "CMYK", [[200, 100, 50, 40]], none, none, none, some 95⟩
        "imagen_cmyk.jpg" "image/jpeg" none
    ∧ (⟨"JPEG", "CMYK", [[200, 100, 50, 40]], none, none, none,
        some 95⟩ : SavedFile).dpi ≠ some TARGET_DPI := by
  decide

/-- C5 amended: every JPEG download uses a CMYK-only pixel layout,
attempts no ICC profile embedding, and fixes quality at 95, but the
save call passes no dpi argument, so no 150 by 150 DPI resolution tag
is applied to the JPEG output. -/
theorem C5_jpeg_output (T : TransformEngine)
    (conv : Img → String → Option (List (List Nat))) (bytes : List Nat)
    (choice : SourceChoice) (img : Img) (f : SavedFile) (n m : String)
    (rep : Option Bool)
    (h : appRun T conv bytes choice .jpeg img = .download f n m rep) :
    f.format = "JPEG" ∧ f.mode = "CMYK" ∧ f.quality = some 95
    ∧ f.icc_profile = none ∧ f.dpi = none := by
  obtain ⟨i, hf, hm, -⟩ := appRun_jpeg_file T conv bytes choice img f n m rep h
  subst hf
  exact ⟨rfl, convertToCMYK_mode_of i hm, rfl, rfl, rfl⟩

/-- C5 witness: the concrete JPEG download of a one-pixel RGB run. -/
theorem C5_jpeg_output_witness :
    (SavedFile.mk "JPEG" "CMYK" [[200, 100, 50, 40]] none none none
        (some 95)).format = "JPEG"
    ∧ (SavedFile.mk "JPEG" "CMYK" [[200, 100, 50, 40]] none none none
        (some 95)).mode = "CMYK"
    ∧ (SavedFile.mk "JPEG" "CMYK" [[200, 100, 50, 40]] none none none
        (some 95)).quality = some 95
    ∧ (SavedFile.mk "JPEG" "CMYK" [[200, 100, 50, 40]] none none none
        (some 95)).icc_profile = none
    ∧ (SavedFile.mk "JPEG" "CMYK" [[200, 100, 50, 40]] none none none
        (some 95)).dpi = none :=
  C5_jpeg_output T0 convNone [7] .sRGB ⟨"RGB", [[10, 20, 30]]⟩
    (SavedFile.mk "JPEG" "CMYK" [[200, 100, 50, 40]] none none none (some 95))
    "imagen_cmyk.jpg" "image/jpeg" none (by decide)

/-- C6 counterexample: a concrete run with a transparent RGBA input
encoded as JPEG produces a CMYK file with no alpha channel, but the
application reports no alphaDropped flag at all — the outcome carries
`none`, not `some true`. -/
theorem C6_alpha_flag_counterexample :
    appRun T0 convNone [7] .sRGB .jpeg ⟨"RGBA", [[10, 20, 30, 128]]⟩ =
      .download ⟨"JPEG", "CMYK", [[209, 124, 82, 0]], none, none, none, some 95⟩
        "imagen_cmyk.jpg" "image/jpeg" none
    ∧ (none : Option Bool) ≠ some true := by
  decide

/-- C6 amended: every JPEG download has a CMYK-only pixel layout with
no alpha channel, but the application surfaces no alphaDropped flag to
the caller: the drop is silent (the reported flag is always `none`,
never `some true`). -/
theorem C6_jpeg_no_alpha_silent (T : TransformEngine)
    (conv : Img → String → Option (List (List Nat))) (bytes : List Nat)
    (choice : SourceChoice) (img : Img) (f : SavedFile) (n m : String)
    (rep : Option Bool)
    (h : appRun T conv bytes choice .jpeg img = .download f n m rep) :
    f.mode = "CMYK" ∧ rep = none := by
  obtain ⟨i, hf, hm, hrep⟩ := appRun_jpeg_file T conv bytes choice img f n m rep h
  subst hf
  exact ⟨convertToCMYK_mode_of i hm, hrep⟩

/-- C6 witness: the concrete JPEG download of a one-pixel RGBA run has
CMYK layout and a `none` alpha-drop report. -/
theorem C6_jpeg_no_alpha_silent_witness :
    (SavedFile.mk "JPEG" "CMYK" [[209, 124, 82, 0]] none none none
        (some 95)).mode = "CMYK"
    ∧ (none : Option Bool) = none :=
  C6_jpeg_no_alpha_silent T0 convNone [7] .sRGB ⟨"RGBA", [[10, 20, 30, 128]]⟩
    (SavedFile.mk "JPEG" "CMYK" [[209, 124, 82, 0]] none none none (some 95))
    "imagen_cmyk.jpg" "image/jpeg" none (by decide)

/-- C7 counterexample: each conversion call opens (parses) both ICC
profiles afresh inside the function body; two conversion requests
referencing the same source profile path parse that profile twice, so
profiles are not parsed once and reused. -/
theorem C7_reparse_counterexample :
    (convert_rgb_to_cmyk T0 ⟨"RGB", [[1, 2, 3]]⟩ SRGB_PROFILE
        CMYK_PROFILE).openedProfiles = [SRGB_PROFILE, CMYK_PROFILE]
    ∧ ((convert_rgb_to_cmyk T0 ⟨"RGB", [[1, 2, 3]]⟩ SRGB_PROFILE
          CMYK_PROFILE).openedProfiles ++
        (convert_rgb_to_cmyk T0 ⟨"RGB", [[4, 5, 6]]⟩ SRGB_PROFILE
          CMYK_PROFILE).openedProfiles).count SRGB_PROFILE = 2 := by
  decide

/-- C7 amended: the CMYK profile bytes used for output embedding are
read once at startup, but the transform profiles are opened (parsed)
by getOpenProfile on every single conversion call: every conversion
opens exactly the source profile and the CMYK profile again. -/
theorem C7_profiles_reopened (T : TransformEngine) (img : Img)
    (src dst : String) :
    (convert_rgb_to_cmyk T img src dst).openedProfiles = [src, dst] :=
  rfl

/-- C8: for every decoded input whose mode is neither RGB-family nor
CMYK, the pipeline coerces it before the transform — to RGBA when the
mode has an alpha component (the mode string contains the band letter
A), else to RGB — and a coercion failure is a hard stop of the
request, with no silent fallback. -/
theorem C8_mode_coercion (T : TransformEngine)
    (conv : Img → String → Option (List (List Nat))) (bytes : List Nat)
    (choice : SourceChoice) (fmt : OutFormat) (img : Img)
    (h1 : img.mode ≠ "RGB") (h2 : img.mode ≠ "RGBA") (h3 : img.mode ≠ "CMYK") :
    (conv img (if img.mode.data.contains 'A' then "RGBA" else "RGB") = none →
      appRun T conv bytes choice fmt img = .stopped)
    ∧ ∀ px, conv img (if img.mode.data.contains 'A' then "RGBA" else "RGB") = some px →
        appRun T conv bytes choice fmt img =
          appRun T conv bytes choice fmt
            ⟨(if img.mode.data.contains 'A' then "RGBA" else "RGB"), px⟩ := by
  have hb1 : (img.mode == "RGB") = false := by simp [h1]
  have hb2 : (img.mode == "RGBA") = false := by simp [h2]
  have hb3 : (img.mode == "CMYK") = false := by simp [h3]
  constructor
  · intro hc
    by_cases hA : img.mode.data.contains 'A' = true
    · have hA2 : 'A' ∈ img.mode.data := by simpa using hA
      simp only [hA, if_true] at hc
      simp [appRun, appRunCore, normalizeMode, hb1, hb2, hb3, hA2, hc]
    · have hl : img.mode ≠ "LA" := by
        intro he
        rw [he] at hA
        exact hA (by decide)
      have hA2 : 'A' ∉ img.mode.data := by simpa using hA
      simp only [hA, Bool.false_eq_true, if_false] at hc
      simp [appRun, appRunCore, normalizeMode, hb1, hb2, hb3, hA2, hl, hc]
  · intro px hpx
    by_cases hA : img.mode.data.contains 'A' = true
    · have hA2 : 'A' ∈ img.mode.data := by simpa using hA
      simp only [hA, if_true] at hpx ⊢
      simp [appRun, appRunCore, normalizeMode, hb1, hb2, hb3, hA2, hpx]
    · have hl : img.mode ≠ "LA" := by
        intro he
        rw [he] at hA
        exact hA (by decide)
      have hA2 : 'A' ∉ img.mode.data := by simpa using hA
      simp only [hA, Bool.false_eq_true, if_false] at hpx ⊢
      simp [appRun, appRunCore, normalizeMode, hb1, hb2, hb3, hA2, hl, hpx]

/-- C8 witness: a grayscale (mode L) input with a failing coercion is
a hard stop. -/
theorem C8_mode_coercion_witness :
    appRun T0 convNone [7] .sRGB .tiff ⟨"L", [[7]]⟩ = .stopped :=
  (C8_mode_coercion T0 convNone [7] .sRGB .tiff ⟨"L", [[7]]⟩ (by decide)
    (by decide) (by decide)).1 (by decide)

/-- C9: the pipeline is a deterministic function of its inputs: the
caller-visible outcome does not depend on the accumulated process
state (the history of profile-open events, the only cross-request
state of the program), and an immediate re-run on the state left by
the first run yields the identical outcome, byte for byte. -/
theorem C9_deterministic (T : TransformEngine)
    (conv : Img → String → Option (List (List Nat))) (bytes : List Nat)
    (choice : SourceChoice) (fmt : OutFormat) (img : Img)
    (s1 s2 : List String) :
    (appRunStateful T conv bytes choice fmt img s1).1 =
      (appRunStateful T conv bytes choice fmt img s2).1
    ∧ (appRunStateful T conv bytes choice fmt img
        (appRunStateful T conv bytes choice fmt img s1).2).1 =
      (appRunStateful T conv bytes choice fmt img s1).1 :=
  ⟨rfl, rfl⟩

/-- A map over the zipWith that reattaches alpha into band 3 is
independent of the alpha plane whenever the mapped function does not
look at band 3 of the reattached pixel. -/
theorem map_zipWith_indep {α : Type} (f : List Nat → α)
    (X : (Nat × Nat × Nat) → List Nat)
    (hf : ∀ q al, f ((cmyk2rgbPixel q).set 3 al) = f (cmyk2rgbPixel q))
    (rgb : List (Nat × Nat × Nat)) (a : List Nat) (h : a.length = rgb.length) :
    (List.zipWith (fun t al => ((cmyk2rgbPixel (X t)).set 3 al)) rgb a).map f
      = rgb.map (fun t => f (cmyk2rgbPixel (X t))) := by
  induction rgb generalizing a with
  | nil => cases a <;> simp_all
  | cons t ts ih =>
    cases a with
    | nil => simp at h
    | cons a0 as =>
      simp only [List.zipWith_cons_cons, List.map_cons]
      exact congrArg₂ _ (hf (X t) a0) (ih as (by simpa using h))

/-- Pixel-level computation of convert_rgb_to_cmyk on a constructed
RGBA image: the result is the RGBA-mode image whose pixels are the
cmyk2rgb fold of the engine output with the original alpha stored into
band 3. -/
theorem convert_mkRGBA (T : TransformEngine) (src dst : String)
    (rgb : List (Nat × Nat × Nat)) (a : List Nat) (h : a.length = rgb.length) :
    (convert_rgb_to_cmyk T (mkRGBA rgb a) src dst).result =
      some ⟨"RGBA",
        List.zipWith (fun t al =>
          ((cmyk2rgbPixel (T src dst INTENT_RELATIVE_COLORIMETRIC
            [t.1, t.2.1, t.2.2])).set 3 al)) rgb a⟩ := by
  have e1 : (("RGBA" : String) == "RGB") = false := by decide
  have e2 : (("RGBA" : String) == "RGBA") = true := by decide
  have e3 : (("CMYK" : String) == "CMYK") = true := by decide
  have e4 : (("CMYK" : String) == "RGBA") = false := by decide
  have e5 : (("CMYK" : String) == "LA") = false := by decide
  have e6 : (("CMYK" : String) == "PA") = false := by decide
  simp only [convert_rgb_to_cmyk, mkRGBA, toRGB, profileToProfile, putalpha,
    putband, getchannel_A, e1, e2, e3, e4, e5, e6, Bool.or_self,
    Bool.false_or, if_true, if_false, Bool.false_eq_true, ite_true, ite_false,
    Option.some.injEq, Img.mk.injEq, List.map_map]
  refine ⟨trivial, ?_⟩
  induction rgb generalizing a with
  | nil => cases a <;> simp_all
  | cons t ts ih =>
    cases a with
    | nil => simp at h
    | cons a0 as =>
      simp only [List.zipWith_cons_cons, List.map_cons, Function.comp]
      exact congrArg₂ _ rfl (ih as (by simpa using h))

/-- C10: the alpha plane has no influence on the colour output of the
conversion: two RGBA inputs with identical RGB channels and arbitrary
different alpha planes yield conversion results with identical colour
channels (the first three bands), and the CMYK buffers subsequently
handed to the JPEG encoder are identical in full. -/
theorem C10_alpha_noninterference (T : TransformEngine) (src dst : String)
    (rgb : List (Nat × Nat × Nat)) (a1 a2 : List Nat)
    (h1 : a1.length = rgb.length) (h2 : a2.length = rgb.length) :
    ∃ r1 r2 : Img,
      (convert_rgb_to_cmyk T (mkRGBA rgb a1) src dst).result = some r1
      ∧ (convert_rgb_to_cmyk T (mkRGBA rgb a2) src dst).result = some r2
      ∧ r1.pixels.map (List.take 3) = r2.pixels.map (List.take 3)
      ∧ convertToCMYK r1 = convertToCMYK r2 := by
  have hfA : ∀ (q : List Nat) (al : Nat),
      ((cmyk2rgbPixel q).set 3 al).take 3 = (cmyk2rgbPixel q).take 3 :=
    fun q al => rfl
  have hfB : ∀ (q : List Nat) (al : Nat),
      rgb2cmykPixel ((cmyk2rgbPixel q).set 3 al) = rgb2cmykPixel (cmyk2rgbPixel q) :=
    fun q al => rfl
  refine ⟨_, _, convert_mkRGBA T src dst rgb a1 h1,
    convert_mkRGBA T src dst rgb a2 h2, ?_, ?_⟩
  · rw [map_zipWith_indep (List.take 3) _ hfA rgb a1 h1,
      map_zipWith_indep (List.take 3) _ hfA rgb a2 h2]
  · have e1 : (("RGBA" : String) == "CMYK") = false := by decide
    have e2 : (("RGBA" : String) == "RGB") = false := by decide
    have e3 : (("RGBA" : String) == "RGBA") = true := by decide
    simp only [convertToCMYK, e1, e2, e3, Bool.false_or, if_true, if_false,
      Bool.false_eq_true, ite_true, ite_false, Img.mk.injEq]
    exact ⟨trivial, by
      rw [map_zipWith_indep rgb2cmykPixel _ hfB rgb a1 h1,
        map_zipWith_indep rgb2cmykPixel _ hfB rgb a2 h2]⟩

/-- C10 witness: a concrete one-pixel RGB plane with alpha 0 versus
alpha 255 yields identical colour channels and identical JPEG-path
CMYK buffers. -/
theorem C10_alpha_noninterference_witness :
    ∃ r1 r2 : Img,
      (convert_rgb_to_cmyk T0 (mkRGBA [(10, 20, 30)] [0]) SRGB_PROFILE
        CMYK_PROFILE).result = some r1
      ∧ (convert_rgb_to_cmyk T0 (mkRGBA [(10, 20, 30)] [255]) SRGB_PROFILE
        CMYK_PROFILE).result = some r2
      ∧ r1.pixels.map (List.take 3) = r2.pixels.map (List.take 3)
      ∧ convertToCMYK r1 = convertToCMYK r2 :=
  C10_alpha_noninterference T0 SRGB_PROFILE CMYK_PROFILE [(10, 20, 30)]
    [0] [255] rfl rfl
